import Mathlib

/-!
Shallow embedding of `pared.py` (PaReD - passive reverse DNS lookup tool).

The script's effectful parts (HTTP calls, `sys.exit`, console printing,
appending to the output file) are made explicit: each provider adapter is
a pure function from the relevant parts of the HTTP response to
`Except ProviderError (List String)`, and the presenter threads an explicit
`RunState` recording console lines, output-file contents and the number of
`open(output, "a")` calls.  Python library behaviour used by the script
(`str.splitlines`, the `in` substring test, `ipaddress.ip_address`,
`ipaddress.ip_network(..., strict=False)` and `.hosts()`, `list.sort`,
`random.choice`) is embedded faithfully for the IPv4 / text inputs the
claims are about; IPv6 address syntax and the dotted-netmask form of
`ip_network` are outside the model and noted where relevant.
-/

namespace PaReD

/-- `listIsPrefix needle hay` : the chars `needle` are an initial segment of
`hay` (helper for the Python `in` substring operator). -/
def listIsPrefix : List Char → List Char → Bool
  | [], _ => true
  | _ :: _, [] => false
  | a :: as, b :: bs => a == b && listIsPrefix as bs

/-- `containsSub hay needle` : `needle` occurs as a contiguous run in `hay`. -/
def containsSub (hay needle : List Char) : Bool :=
  match hay with
  | [] => listIsPrefix needle []
  | _ :: rest => listIsPrefix needle hay || containsSub rest needle

/-- Python's `needle in hay` substring test on strings. -/
def strContains (hay needle : String) : Bool :=
  containsSub hay.data needle.data

/-- Python's `str.splitlines()` on the line boundaries that occur in HTTP
text bodies (`\n`, `\r`, `\r\n`): splits at every boundary, keeps interior
empty segments, drops only the final empty segment after a trailing
terminator. -/
def splitlinesAux : List Char → List Char → List String
  | [], [] => []
  | [], acc => [String.mk acc.reverse]
  | '\r' :: '\n' :: rest, acc => String.mk acc.reverse :: splitlinesAux rest []
  | '\n' :: rest, acc => String.mk acc.reverse :: splitlinesAux rest []
  | '\r' :: rest, acc => String.mk acc.reverse :: splitlinesAux rest []
  | c :: rest, acc => splitlinesAux rest (c :: acc)

/-- Python's `str.splitlines()`. -/
def splitlines (s : String) : List String :=
  splitlinesAux s.data []

/-- `splitOnCharAux` : split a char list at every occurrence of `sep`,
keeping empty segments (Python's `str.split(sep)`). -/
def splitOnCharAux (sep : Char) : List Char → List Char → List String
  | [], acc => [String.mk acc.reverse]
  | c :: rest, acc =>
    if c == sep then String.mk acc.reverse :: splitOnCharAux sep rest []
    else splitOnCharAux sep rest (c :: acc)

/-- Python's `s.split(sep)` for a one-character separator (also how
`ipaddress` splits on `"."` and `"/"`). -/
def splitOnChar (sep : Char) (s : String) : List String :=
  splitOnCharAux sep s.data []

/-- The whitespace stripped by Python's `str.strip()` (the ASCII cases). -/
def isSpaceChar (c : Char) : Bool :=
  c == ' ' || c == '\t' || c == '\n' || c == '\r' || c == '\x0b' || c == '\x0c'

/-- Python's `str.strip()`. -/
def strip (s : String) : String :=
  String.mk (((s.data.dropWhile isSpaceChar).reverse.dropWhile isSpaceChar).reverse)

/-- Python's `<=` on strings: lexicographic by code point. -/
def charListLe : List Char → List Char → Bool
  | [], _ => true
  | _ :: _, [] => false
  | a :: as, b :: bs =>
    if a.toNat < b.toNat then true
    else if b.toNat < a.toNat then false
    else charListLe as bs

/-- Python's `a <= b` on strings. -/
def strLe (a b : String) : Bool :=
  charListLe a.data b.data

/-- Insert `a` before the first element it is `<=` to (insertion step of a
stable sort). -/
def insertSorted (a : String) : List String → List String
  | [] => [a]
  | b :: bs => if strLe a b then a :: b :: bs else b :: insertSorted a bs

/-- Python's `list.sort()` on strings: a stable sort, lexicographic by
code point; embedded as insertion sort, which is stable. -/
def sortStr : List String → List String
  | [] => []
  | a :: as => insertSorted a (sortStr as)

/-- Errors with which a provider adapter aborts the run (`error(...)`
followed by `sys.exit(1)` in the script). -/
inductive ProviderError where
  | httpStatus (code : Nat)
  | quotaExceeded
  deriving DecidableEq, Repr

/-- `from_hackertarget`, as a function of the HTTP response
(status code, body text): non-200 status or the quota marker abort; the
no-records marker gives an empty list; otherwise the result is
`r.text.splitlines()`. -/
def from_hackertarget (status : Nat) (body : String) :
    Except ProviderError (List String) :=
  if status ≠ 200 then .error (.httpStatus status)
  else if strContains body "API count exceeded" then .error .quotaExceeded
  else if strContains body "No DNS A records found" then .ok []
  else .ok (splitlines body)

/-- One record of the mnemonic response's `data` array: the `query` domain
and the raw `lastSeenTimestamp` value. -/
structure MnemonicRecord where
  query : String
  lastSeenTimestamp : Nat
  deriving DecidableEq, Repr

/-- Drop trailing decimal digits until at most 10 remain (the fuel bound
`ts` itself is larger than the digit count, so it never runs out). -/
def take10DigitsAux : Nat → Nat → Nat
  | 0, n => n
  | fuel + 1, n => if n < 10000000000 then n else take10DigitsAux fuel (n / 10)

/-- `int(str(ts)[:10])` for a nonnegative `lastSeenTimestamp`: the integer
formed by the first 10 decimal digits (keeping the most significant ones,
exactly what slicing the decimal string does). -/
def lastSeen10 (ts : Nat) : Nat :=
  take10DigitsAux ts ts

/-- `31536000  # exactly one year`. -/
def diff_ts : Int := 31536000

/-- The freshness filter of `from_mnemonic`'s `for data in r_json["data"]`
loop: keep `data["query"]` when `(curr_ts - last_ts) < diff_ts`.
`curr_ts` (the wall clock) is the parameter `now`. -/
def mnemonicFresh (now : Int) (records : List MnemonicRecord) : List String :=
  records.filterMap (fun d =>
    if now - (lastSeen10 d.lastSeenTimestamp : Int) < diff_ts
    then some d.query else none)

/-- `from_mnemonic`, as a function of the HTTP status, the body's
`responseCode` field (after `int(...)`), the current time and the decoded
`data` array: both codes must be 200, otherwise the run aborts with the
HTTP status; on success the freshness-filtered query domains are returned. -/
def from_mnemonic (status : Nat) (responseCode : Nat) (now : Int)
    (records : List MnemonicRecord) : Except ProviderError (List String) :=
  if status ≠ 200 ∨ responseCode ≠ 200 then .error (.httpStatus status)
  else .ok (mnemonicFresh now records)

/-- Decimal digits of `n`, most significant first (fuel-driven; `n + 1`
steps always suffice). -/
def natToDigitsAux : Nat → Nat → List Char → List Char
  | 0, _, acc => acc
  | fuel + 1, n, acc =>
    if n < 10 then Nat.digitChar n :: acc
    else natToDigitsAux fuel (n / 10) (Nat.digitChar (n % 10) :: acc)

/-- Python's `str(...)` of a nonnegative integer. -/
def natToString (n : Nat) : String :=
  String.mk (natToDigitsAux (n + 1) n [])

/-- One dotted-quad octet per `ipaddress`: 1-3 ASCII digits, no leading
zero (except `"0"` itself), value at most 255. -/
def parseOctet (s : String) : Option Nat :=
  let cs := s.data
  if cs.length = 0 ∨ 3 < cs.length then none
  else if ¬ cs.all (fun c => c.isDigit) then none
  else if 1 < cs.length ∧ cs.headD '0' = '0' then none
  else
    let v := cs.foldl (fun a c => a * 10 + (c.toNat - 48)) 0
    if v ≤ 255 then some v else none

/-- `ipaddress.ip_address` on IPv4 dotted-quad syntax, as the numeric
address (`none` models the `ValueError` raised on invalid input; IPv6
address syntax is not modelled). -/
def ip_address (s : String) : Option Nat :=
  match (splitOnChar '.' s).mapM parseOctet with
  | some [a, b, c, d] => some (((a * 256 + b) * 256 + c) * 256 + d)
  | _ => none

/-- `str(ipaddress.ip_address(addr))` for a numeric IPv4 address: the
canonical dotted-quad form. -/
def ipToString (n : Nat) : String :=
  natToString (n / 16777216 % 256) ++ "." ++ natToString (n / 65536 % 256)
    ++ "." ++ natToString (n / 256 % 256) ++ "." ++ natToString (n % 256)

/-- An IPv4 network: masked base address and prefix length. -/
structure IPv4Network where
  base : Nat
  prefixLen : Nat
  deriving DecidableEq, Repr

/-- The exceptions around `ipaddress.ip_network`: the `IPv4Network` /
`IPv6Network` constructors raise `AddressValueError` or
`NetmaskValueError`, but `ip_network` itself catches both and raises a
plain `ValueError` instead, so only `valueError` ever escapes it. -/
inductive NetParseError where
  | addressValueError
  | netmaskValueError
  | valueError
  deriving DecidableEq, Repr

/-- A CIDR prefix-length string per `ipaddress`: ASCII digits (leading
zeros allowed by CPython here), value at most 32. -/
def parsePrefix (s : String) : Option Nat :=
  let cs := s.data
  if cs.length = 0 ∨ ¬ cs.all (fun c => c.isDigit) then none
  else
    let v := cs.foldl (fun a c => a * 10 + (c.toNat - 48)) 0
    if v ≤ 32 then some v else none

/-- `ipaddress.ip_network(s, strict := False)` on IPv4 CIDR syntax:
host bits are masked away (`strict=False`); a missing prefix means `/32`.
Any syntactically invalid input makes `ip_network` raise a plain
`ValueError` (never `AddressValueError` / `NetmaskValueError`, which it
catches internally).  IPv6 and dotted-netmask syntax are not modelled. -/
def ip_network (s : String) : Except NetParseError IPv4Network :=
  match splitOnChar '/' s with
  | [a] =>
    match ip_address a with
    | some addr => .ok ⟨addr, 32⟩
    | none => .error .valueError
  | [a, p] =>
    match ip_address a, parsePrefix p with
    | some addr, some pl =>
        .ok ⟨addr / 2 ^ (32 - pl) * 2 ^ (32 - pl), pl⟩
    | _, _ => .error .valueError
  | _ => .error .valueError

/-- `.hosts()` of an IPv4 network, per the `ipaddress` library: for
prefixes up to /30 all addresses strictly between the network address and
the broadcast address, in ascending order; for /31 and /32 every address
of the network. -/
def hostsList (net : IPv4Network) : List Nat :=
  let size := 2 ^ (32 - net.prefixLen)
  if 31 ≤ net.prefixLen then (List.range size).map (fun i => net.base + i)
  else (List.range (size - 2)).map (fun i => net.base + 1 + i)

/-- Outcome of `open(f_rua).read().splitlines()` on the word-list file. -/
inductive ReadOutcome where
  | ok (lines : List String)
  | fileNotFound
  | notReadable
  deriving DecidableEq, Repr

/-- Exceptions `get_useragent` can let escape (uncaught by its
`except FileNotFoundError` clause). -/
inductive PyExc where
  | osError
  | indexError
  deriving DecidableEq, Repr

/-- The hard-coded default User-Agent of `get_useragent`. -/
def default_ua : String :=
  "Mozilla/5.0 (compatible; Googlebot/2.1; +http://www.google.com/bot.html)"

/-- `get_useragent(rnd)`: the word-list read outcome is explicit, and
`random.choice(lines)` is `lines[pick % len(lines)]` for an arbitrary
uniformly drawn `pick` (it raises `IndexError` on an empty list).  Only
`FileNotFoundError` is caught; any other read failure escapes. -/
def get_useragent (rnd : Bool) (wordlist : ReadOutcome) (pick : Nat) :
    Except PyExc String :=
  if rnd then
    match wordlist with
    | .ok [] => .error .indexError
    | .ok (l :: ls) => .ok ((l :: ls).getD (pick % (l :: ls).length) "")
    | .fileNotFound => .ok default_ua
    | .notReadable => .error .osError
  else .ok default_ua

/-- The observable state threaded through a run: console lines (the
informational `[+]`-header lines and colors are presentation and elided;
error lines, FQDN lines and notices are kept), the number of
`open(output, "a")` calls made so far, and the output file's lines. -/
structure RunState where
  printed : List String
  openCount : Nat
  fileLines : List String
  deriving DecidableEq, Repr

/-- The state at the start of a run: nothing printed, the output file
never opened (hence not created) and empty. -/
def initState : RunState := ⟨[], 0, []⟩

/-- The message `error(...)` prints (sans color) before `sys.exit(1)` on
each provider error path. -/
def providerErrorMessage : ProviderError → String
  | .httpStatus code =>
      "ERROR! Server responded with HTTP code " ++ natToString code ++ "."
  | .quotaExceeded => "ERROR! API count exceeded."

/-- `print_domains(ip, source, ua, output)` for one target.  `resolve` is
the selected provider adapter applied to its (stubbed) HTTP exchange, i.e.
`globals()["from_" + source]`; `useOutput` is whether `-o` was given.
Returns the new state and `some code` when the call ended in
`sys.exit(code)`.  The reverse-DNS lookup only feeds an informational
header line and is elided with it. -/
def print_domains (resolve : String → Except ProviderError (List String))
    (useOutput : Bool) (ip : String) (st : RunState) :
    RunState × Option Nat :=
  match ip_address ip with
  | none =>
      ({ st with printed := st.printed ++ ["ERROR! IP address is not valid."] },
       some 1)
  | some addr =>
    let ipStr := ipToString addr
    match resolve ipStr with
    | .error e =>
        ({ st with printed := st.printed ++ [providerErrorMessage e] }, some 1)
    | .ok fqdns =>
      if 0 < fqdns.length then
        let sorted := sortStr fqdns
        if useOutput then
          ({ st with printed := st.printed ++ sorted,
                     openCount := st.openCount + 1,
                     fileLines := st.fileLines ++ sorted }, none)
        else ({ st with printed := st.printed ++ sorted }, none)
      else
        ({ st with printed := st.printed ++
            ["No domains found for IP " ++ ipStr ++ ", sorry."] }, none)

/-- Process targets in order, stopping at the first `sys.exit`. -/
def run_targets (resolve : String → Except ProviderError (List String))
    (useOutput : Bool) (targets : List String) (st : RunState) :
    RunState × Option Nat :=
  match targets with
  | [] => (st, none)
  | t :: ts =>
    match print_domains resolve useOutput t st with
    | (st', some code) => (st', some code)
    | (st', none) => run_targets resolve useOutput ts st'

/-- `main`'s `--file` branch: one target per line, each `strip()`ed. -/
def main_file (resolve : String → Except ProviderError (List String))
    (useOutput : Bool) (lines : List String) (st : RunState) :
    RunState × Option Nat :=
  run_targets resolve useOutput (lines.map strip) st

/-- `main`'s `--subnet` branch: `for ip in ip_network(subnet, False).hosts()`
inside `try/except AddressValueError/NetmaskValueError`.  Since
`ip_network` only ever raises a plain `ValueError` on bad syntax, the two
handlers (which would print `Invalid subnet.` and fall through to a normal
exit) are unreachable; the `ValueError` propagates uncaught, so the
interpreter prints its message as a traceback and exits with status 1. -/
def main_subnet (resolve : String → Except ProviderError (List String))
    (useOutput : Bool) (subnet : String) (st : RunState) :
    RunState × Option Nat :=
  match ip_network subnet with
  | .ok net => run_targets resolve useOutput ((hostsList net).map ipToString) st
  | .error .addressValueError =>
      ({ st with printed := st.printed ++ ["ERROR! Invalid subnet."] }, none)
  | .error .netmaskValueError =>
      ({ st with printed := st.printed ++ ["ERROR! Invalid subnet."] }, none)
  | .error .valueError =>
      ({ st with printed := st.printed ++
          ["ValueError: " ++ subnet ++
            " does not appear to be an IPv4 or IPv6 network"] }, some 1)

example : splitlines "a\n\nb" = ["a", "", "b"] := by decide
example : splitlines "a\nb\n" = ["a", "b"] := by decide
example : splitlines "" = [] := by decide
example : strContains "xx No DNS A records found yy" "No DNS A records found" = true := by decide
example : lastSeen10 1690000000123 = 1690000000 := by decide
example : ip_address "1.1.1.1" = some 16843009 := by decide
example : ip_address "999.1.1.1" = none := by decide
example : ip_address "not-an-ip" = none := by decide
example : ipToString 16843009 = "1.1.1.1" := by decide
example : ip_network "10.0.0.0/30" = .ok ⟨167772160, 30⟩ := by rfl
example : ip_network "999.1.1.1/24" = .error .valueError := by rfl
example : hostsList ⟨167772160, 30⟩ = [167772161, 167772162] := by decide
example : hostsList ⟨167772160, 31⟩ = [167772160, 167772161] := by decide
example : sortStr ["b.x", "a.x"] = ["a.x", "b.x"] := by decide

/-- A stubbed provider adapter returning one domain derived from the
queried IP (used to instantiate run-level statements). -/
def stubOneDomain : String → Except ProviderError (List String) :=
  fun ip => .ok ["host-" ++ ip ++ ".example"]

/-- A stubbed provider adapter that always finds no domains. -/
def stubEmpty : String → Except ProviderError (List String) :=
  fun _ => .ok []

/-- The freshness loop of `from_mnemonic` is the freshness filter of the
records followed by projection to their query domains. -/
theorem mnemonicFresh_eq_filter (now : Int) (records : List MnemonicRecord) :
    mnemonicFresh now records
      = (records.filter
          (fun d => now - (lastSeen10 d.lastSeenTimestamp : Int) < diff_ts)).map
          MnemonicRecord.query := by
  induction records with
  | nil => rfl
  | cons d ds ih =>
    by_cases h : now - (lastSeen10 d.lastSeenTimestamp : Int) < diff_ts
    · simp only [mnemonicFresh, List.filterMap_cons, List.filter_cons, if_pos h,
        decide_eq_true h, List.map_cons]
      exact congrArg _ ih
    · simp only [mnemonicFresh, List.filterMap_cons, List.filter_cons, if_neg h,
        decide_eq_false h]
      exact ih

/-- Claim C2 (confirmed): a record's query domain is kept by the mnemonic
freshness loop exactly when `now` minus the first 10 digits of its
`lastSeenTimestamp` is strictly below 31536000 seconds; with
`now = 1700000000`, a record last seen at `1690000000` is included and one
last seen at `1600000000` is excluded. -/
theorem C2_mnemonic_freshness :
    (∀ (now : Int) (records : List MnemonicRecord),
      mnemonicFresh now records
        = (records.filter
            (fun d => now - (lastSeen10 d.lastSeenTimestamp : Int) < diff_ts)).map
            MnemonicRecord.query)
    ∧ diff_ts = 31536000
    ∧ mnemonicFresh 1700000000 [⟨"fresh.example", 1690000000⟩] = ["fresh.example"]
    ∧ mnemonicFresh 1700000000 [⟨"stale.example", 1600000000⟩] = [] :=
  ⟨mnemonicFresh_eq_filter, rfl, by decide, by decide⟩

/-- Claim C5 (confirmed): `from_mnemonic` succeeds exactly when both the
HTTP status and the body's `responseCode` are 200; otherwise it fails with
a `ProviderError` carrying the HTTP status and yields no FQDN list. -/
theorem C5_mnemonic_status_gate :
    ∀ (status responseCode : Nat) (now : Int) (records : List MnemonicRecord),
      ((∃ fqdns, from_mnemonic status responseCode now records = .ok fqdns)
        ↔ (status = 200 ∧ responseCode = 200))
      ∧ ((status ≠ 200 ∨ responseCode ≠ 200) →
          from_mnemonic status responseCode now records
            = .error (.httpStatus status)) := by
  intro status responseCode now records
  constructor
  · constructor
    · intro ⟨fqdns, hf⟩
      by_contra hc
      have h : status ≠ 200 ∨ responseCode ≠ 200 := by tauto
      rw [from_mnemonic, if_pos h] at hf
      exact Except.noConfusion hf
    · intro ⟨h1, h2⟩
      refine ⟨mnemonicFresh now records, ?_⟩
      rw [from_mnemonic, if_neg (by simp [h1, h2])]
  · intro h
    rw [from_mnemonic, if_pos h]

/-- Claim C5 witness: at status 500 the call is the fatal error carrying
500; at double success the FQDN list is produced. -/
theorem C5_witness :
    from_mnemonic 500 200 1700000000 [] = .error (.httpStatus 500)
    ∧ (∃ fqdns, from_mnemonic 200 200 1700000000 [] = .ok fqdns) :=
  ⟨(C5_mnemonic_status_gate 500 200 1700000000 []).2 (Or.inl (by decide)),
   (C5_mnemonic_status_gate 200 200 1700000000 []).1.mpr ⟨rfl, rfl⟩⟩

/-- Claim C3 (confirmed): on a 200 response, a body containing
`API count exceeded` is the fatal quota error; otherwise a body containing
`No DNS A records found` gives the empty list without error; otherwise the
result is exactly the body's lines (so each non-empty line of the body is
one FQDN of the result), and three newline-separated hostnames give
exactly those three values. -/
theorem C3_hackertarget_body_parsing :
    (∀ body : String, strContains body "API count exceeded" = true →
        from_hackertarget 200 body = .error .quotaExceeded)
    ∧ (∀ body : String, strContains body "API count exceeded" = false →
        strContains body "No DNS A records found" = true →
        from_hackertarget 200 body = .ok [])
    ∧ (∀ body : String, strContains body "API count exceeded" = false →
        strContains body "No DNS A records found" = false →
        from_hackertarget 200 body = .ok (splitlines body)
          ∧ ∀ line ∈ splitlines body, line ≠ "" →
              ∃ fqdns, from_hackertarget 200 body = .ok fqdns ∧ line ∈ fqdns)
    ∧ from_hackertarget 200 "one.example.com\ntwo.example.com\nthree.example.com"
        = .ok ["one.example.com", "two.example.com", "three.example.com"] := by
  refine ⟨?_, ?_, ?_, by rfl⟩
  · intro body h
    rw [from_hackertarget, if_neg (by decide), if_pos h]
  · intro body h1 h2
    rw [from_hackertarget, if_neg (by decide), if_neg (by simp [h1]), if_pos h2]
  · intro body h1 h2
    have he : from_hackertarget 200 body = .ok (splitlines body) := by
      rw [from_hackertarget, if_neg (by decide), if_neg (by simp [h1]),
        if_neg (by simp [h2])]
    exact ⟨he, fun line hl _ => ⟨splitlines body, he, hl⟩⟩

/-- Claim C3 witness: instances of the three response shapes at concrete
bodies. -/
theorem C3_witness :
    from_hackertarget 200 "error check your search parameter\nAPI count exceeded - Upgrade for unlimited"
      = .error .quotaExceeded
    ∧ from_hackertarget 200 "No DNS A records found for 203.0.113.9" = .ok []
    ∧ from_hackertarget 200 "a.example\nb.example"
        = .ok (splitlines "a.example\nb.example") :=
  ⟨C3_hackertarget_body_parsing.1 _ (by decide),
   C3_hackertarget_body_parsing.2.1 _ (by decide) (by decide),
   (C3_hackertarget_body_parsing.2.2.1 _ (by decide) (by decide)).1⟩

/-- Claim C6 counterexample: the hackertarget parser returns the raw line
split of the body, so a 200 body with a repeated hostname and an interior
blank line yields an fqdns list with a duplicate entry and an empty
string, violating the claimed invariant. -/
theorem C6_counterexample :
    from_hackertarget 200 "dup.example\n\ndup.example"
      = .ok ["dup.example", "", "dup.example"]
    ∧ ¬ (["dup.example", "", "dup.example"] : List String).Nodup
    ∧ "" ∈ (["dup.example", "", "dup.example"] : List String) :=
  ⟨by rfl, by decide, by decide⟩

/-- Claim C6 as amended (proved): an empty fqdns collection is a valid
no-results outcome produced on the success path, distinct from a fetch
error (adapters error only on non-200 status, the quota marker, or a
non-200 `responseCode`, and then produce no list); the no-duplicates /
no-empty-strings part of the claim does not hold of the code. -/
theorem C6_amended_empty_vs_error :
    from_hackertarget 200 "No DNS A records found for 203.0.113.9" = .ok []
    ∧ from_mnemonic 200 200 1700000000 [⟨"stale.example", 1600000000⟩]
        = .ok ([] : List String)
    ∧ (∀ (status : Nat) (body : String) (e : ProviderError),
        from_hackertarget status body = .error e →
        status ≠ 200 ∨ strContains body "API count exceeded" = true)
    ∧ (∀ (status responseCode : Nat) (now : Int)
        (records : List MnemonicRecord) (e : ProviderError),
        from_mnemonic status responseCode now records = .error e →
        status ≠ 200 ∨ responseCode ≠ 200) := by
  refine ⟨by rfl, by rfl, ?_, ?_⟩
  · intro status body e h
    by_contra hc
    push_neg at hc
    obtain ⟨h1, h2⟩ := hc
    rw [from_hackertarget, if_neg (by simpa using h1), if_neg (by simp [h2])] at h
    by_cases h3 : strContains body "No DNS A records found" = true
    · rw [if_pos h3] at h
      exact Except.noConfusion h
    · rw [if_neg h3] at h
      exact Except.noConfusion h
  · intro status responseCode now records e h
    by_contra hc
    push_neg at hc
    rw [from_mnemonic, if_neg (by simp [hc.1, hc.2])] at h
    exact Except.noConfusion h

/-- Claim C6 amended witness: the error characterizations applied at a
concrete failing exchange. -/
theorem C6_amended_witness :
    (500 ≠ 200 ∨ strContains "whatever" "API count exceeded" = true)
    ∧ (200 ≠ 200 ∨ 404 ≠ 200) :=
  ⟨C6_amended_empty_vs_error.2.2.1 500 "whatever" (.httpStatus 500) (by rfl),
   C6_amended_empty_vs_error.2.2.2 200 404 1700000000 [] (.httpStatus 200) (by rfl)⟩

/-- Claim C1 counterexample: in file mode, a syntactically invalid IP on a
middle line does not merely skip that target - `print_domains` calls
`sys.exit(1)`, so the run stops and the following target `2.2.2.2` is
never processed. -/
theorem C1_counterexample :
    main_file stubOneDomain false ["1.1.1.1", "not-an-ip", "2.2.2.2"] initState
      = (⟨["host-1.1.1.1.example", "ERROR! IP address is not valid."], 0, []⟩,
         some 1) := by
  rfl

/-- Claim C1 as amended (proved): an invalid IP string is a fatal error in
every mode: `print_domains` prints the error and exits with status 1, so
when enumerating multiple targets the run aborts at the invalid target and
the remaining targets are not processed. -/
theorem C1_invalid_ip_always_fatal :
    ∀ (resolve : String → Except ProviderError (List String)) (useOutput : Bool)
      (ip : String) (st : RunState) (rest : List String),
      ip_address ip = none →
      (print_domains resolve useOutput ip st
        = ({ st with
              printed := st.printed ++ ["ERROR! IP address is not valid."] },
           some 1))
      ∧ (run_targets resolve useOutput (ip :: rest) st
        = ({ st with
              printed := st.printed ++ ["ERROR! IP address is not valid."] },
           some 1)) := by
  intro resolve useOutput ip st rest h
  have hp : print_domains resolve useOutput ip st
      = ({ st with printed := st.printed ++ ["ERROR! IP address is not valid."] },
         some 1) := by
    rw [print_domains, h]
  exact ⟨hp, by rw [run_targets, hp]⟩

/-- Claim C1 amended witness: the abort applied at the concrete invalid
target `not-an-ip` followed by a pending target. -/
theorem C1_witness :
    run_targets stubOneDomain false ["not-an-ip", "2.2.2.2"] initState
      = (⟨["ERROR! IP address is not valid."], 0, []⟩, some 1) := by
  have h := (C1_invalid_ip_always_fatal stubOneDomain false "not-an-ip" initState
    ["2.2.2.2"] (by rfl)).2
  simpa using h

/-- On any input, `ipaddress.ip_network` itself only ever raises a plain
`ValueError` (it catches the constructors' `AddressValueError` and
`NetmaskValueError` internally), which is why `main`'s two handlers are
unreachable. -/
theorem ip_network_error_is_valueError :
    ∀ (s : String) (e : NetParseError),
      ip_network s = .error e → e = .valueError := by
  intro s e h
  unfold ip_network at h
  split at h
  · split at h
    · exact Except.noConfusion h
    · cases h
      rfl
  · split at h
    · exact Except.noConfusion h
    · cases h
      rfl
  · cases h
    rfl

/-- Claim C7 (confirmed): a syntactically invalid CIDR subnet string makes
the run process no targets and end with exit status 1; the plain
`ValueError` escapes `main`'s handlers uncaught, so the interpreter prints
its human-readable message and exits non-zero (the script's own
`Invalid subnet.` handlers are unreachable). -/
theorem C7_invalid_subnet_fatal :
    (∀ (s : String) (e : NetParseError),
      ip_network s = .error e → e = .valueError)
    ∧ ∀ (resolve : String → Except ProviderError (List String))
        (useOutput : Bool) (subnet : String) (st : RunState),
        ip_network subnet = .error .valueError →
        main_subnet resolve useOutput subnet st
          = ({ st with printed := st.printed ++
              ["ValueError: " ++ subnet ++
                " does not appear to be an IPv4 or IPv6 network"] },
             some 1) := by
  refine ⟨ip_network_error_is_valueError, ?_⟩
  intro resolve useOutput subnet st h
  rw [main_subnet, h]

/-- Claim C7 witness: the concrete invalid subnet `999.1.1.1/24` processes
no targets (state untouched but for the error line, file never opened) and
exits with status 1. -/
theorem C7_witness :
    main_subnet stubOneDomain true "999.1.1.1/24" initState
      = (⟨["ValueError: 999.1.1.1/24 does not appear to be an IPv4 or IPv6 network"],
          0, []⟩, some 1) := by
  have h := C7_invalid_subnet_fatal.2 stubOneDomain true "999.1.1.1/24" initState
    (by rfl)
  simpa using h

/-- Claim C4 counterexample: for the /31 network `10.0.0.0/31`, `.hosts()`
yields both addresses of the network - including the network address
`10.0.0.0` (numerically 167772160) and the last (broadcast-position)
address `10.0.0.1` - contradicting the claimed unconditional exclusion of
network and broadcast addresses. -/
theorem C4_counterexample :
    ip_network "10.0.0.0/31" = .ok ⟨167772160, 31⟩
    ∧ hostsList ⟨167772160, 31⟩ = [167772160, 167772161]
    ∧ (167772160 : Nat) ∈ hostsList ⟨167772160, 31⟩ :=
  ⟨by rfl, by decide, by decide⟩

/-- Claim C4 as amended (proved): for prefix lengths up to /30, subnet
expansion yields exactly the addresses strictly between the network
address and the broadcast address, in ascending order; for /31 and /32 it
yields every address of the network; `10.0.0.0/30` parses to the network
`10.0.0.0/30` and expands to exactly `10.0.0.1` and `10.0.0.2` in that
order. -/
theorem C4_host_expansion :
    (∀ (net : IPv4Network) (a : Nat), net.prefixLen ≤ 30 →
      (a ∈ hostsList net ↔
        net.base < a ∧ a < net.base + 2 ^ (32 - net.prefixLen) - 1))
    ∧ (∀ net : IPv4Network, (hostsList net).Pairwise (· < ·))
    ∧ (∀ net : IPv4Network, 31 ≤ net.prefixLen →
        hostsList net
          = (List.range (2 ^ (32 - net.prefixLen))).map (fun i => net.base + i))
    ∧ ip_network "10.0.0.0/30" = .ok ⟨167772160, 30⟩
    ∧ (hostsList ⟨167772160, 30⟩).map ipToString = ["10.0.0.1", "10.0.0.2"] := by
  refine ⟨?_, ?_, ?_, by rfl, by decide⟩
  · intro net a hp
    have hs : 4 ≤ 2 ^ (32 - net.prefixLen) := by
      calc (4 : Nat) = 2 ^ 2 := by norm_num
      _ ≤ 2 ^ (32 - net.prefixLen) := Nat.pow_le_pow_right (by norm_num) (by omega)
    rw [hostsList, if_neg (by omega)]
    generalize 2 ^ (32 - net.prefixLen) = s at hs ⊢
    simp only [List.mem_map, List.mem_range]
    constructor
    · rintro ⟨i, hi, rfl⟩
      omega
    · rintro ⟨h1, h2⟩
      exact ⟨a - net.base - 1, by omega, by omega⟩
  · intro net
    rw [hostsList]
    split
    · exact (List.pairwise_lt_range _).map _ (fun a b h => by omega)
    · exact (List.pairwise_lt_range _).map _ (fun a b h => by omega)
  · intro net hp
    rw [hostsList, if_pos hp]

/-- Claim C4 amended witness: the membership bound applied at the /30
network and the /31 full expansion at a concrete network. -/
theorem C4_witness :
    ((167772161 : Nat) ∈ hostsList ⟨167772160, 30⟩ ↔
      167772160 < 167772161 ∧ 167772161 < 167772160 + 2 ^ (32 - 30) - 1)
    ∧ hostsList ⟨167772160, 31⟩
        = (List.range (2 ^ (32 - 31))).map (fun i => 167772160 + i) :=
  ⟨C4_host_expansion.1 ⟨167772160, 30⟩ 167772161 (by decide),
   C4_host_expansion.2.2.1 ⟨167772160, 31⟩ (by decide)⟩

/-- Claim C8 counterexample: over a two-target run in which both lookups
find domains, the output file is opened (in append mode) twice - once per
target - not once for the whole run. -/
theorem C8_counterexample :
    run_targets stubOneDomain true ["10.0.0.1", "10.0.0.2"] initState
      = (⟨["host-10.0.0.1.example", "host-10.0.0.2.example"], 2,
          ["host-10.0.0.1.example", "host-10.0.0.2.example"]⟩, none)
    ∧ (2 : Nat) ≠ 1 :=
  ⟨by rfl, by decide⟩

/-- Claim C8 as amended (proved): when an output file is configured,
`print_domains` opens it in append mode once per target whose lookup
returns a non-empty FQDN list (so a multi-target run opens it once per
such target, not once overall), and appends that lookup's FQDNs to it,
one per line, sorted. -/
theorem C8_output_open_per_target :
    ∀ (resolve : String → Except ProviderError (List String)) (ip : String)
      (st : RunState) (addr : Nat) (fqdns : List String),
      ip_address ip = some addr →
      resolve (ipToString addr) = .ok fqdns →
      fqdns ≠ [] →
      print_domains resolve true ip st
        = ({ st with printed := st.printed ++ sortStr fqdns,
                     openCount := st.openCount + 1,
                     fileLines := st.fileLines ++ sortStr fqdns }, none) := by
  intro resolve ip st addr fqdns h1 h2 h3
  rw [print_domains, h1]
  simp only [h2]
  rw [if_pos (List.length_pos.mpr h3), if_pos trivial]

/-- Claim C8 amended witness: one concrete target with a non-empty lookup
opens the file exactly once and appends its lines. -/
theorem C8_witness :
    print_domains stubOneDomain true "10.0.0.1" initState
      = (⟨["host-10.0.0.1.example"], 1, ["host-10.0.0.1.example"]⟩, none) := by
  have h := C8_output_open_per_target stubOneDomain "10.0.0.1" initState
    167772161 ["host-10.0.0.1.example"] (by rfl) (by rfl) (by decide)
  simpa using h

/-- Claim C9 counterexample: with `useRandom = true`, a word-list file
that exists but is unreadable (any `OSError` other than
`FileNotFoundError`, e.g. a permission error) is not caught by
`get_useragent`'s `except FileNotFoundError` clause: the exception
escapes instead of the fixed default being returned. -/
theorem C9_counterexample :
    get_useragent true .notReadable 0 = .error .osError
    ∧ (Except.error .osError : Except PyExc String) ≠ .ok default_ua :=
  ⟨by rfl, fun h => Except.noConfusion h⟩

/-- Claim C9 as amended (proved): with `useRandom = false` the fixed
default is returned; with `useRandom = true` and a readable non-empty word
list a uniformly random line is returned (every line is a possible
outcome); only the missing-file case falls back to the fixed default -
any other unreadable word list lets the exception escape, and an empty
word list raises `IndexError` in `random.choice`. -/
theorem C9_useragent_selection :
    (∀ (wordlist : ReadOutcome) (pick : Nat),
      get_useragent false wordlist pick = .ok default_ua)
    ∧ (∀ pick : Nat, get_useragent true .fileNotFound pick = .ok default_ua)
    ∧ (∀ (lines : List String) (pick : Nat), lines ≠ [] →
        get_useragent true (.ok lines) pick
          = .ok (lines.getD (pick % lines.length) ""))
    ∧ (∀ (lines : List String) (l : String), l ∈ lines →
        ∃ pick, get_useragent true (.ok lines) pick = .ok l)
    ∧ (∀ pick : Nat, get_useragent true .notReadable pick = .error .osError)
    ∧ (∀ pick : Nat, get_useragent true (.ok []) pick = .error .indexError) := by
  refine ⟨fun w p => rfl, fun p => rfl, ?_, ?_, fun p => rfl, fun p => rfl⟩
  · intro lines pick h
    match lines with
    | l :: ls => rfl
  · intro lines l hl
    match lines with
    | [] => exact absurd hl (List.not_mem_nil l)
    | x :: xs =>
      obtain ⟨i, hi, hget⟩ := List.mem_iff_getElem.mp hl
      refine ⟨i, ?_⟩
      show Except.ok ((x :: xs).getD (i % (x :: xs).length) "") = Except.ok l
      rw [Nat.mod_eq_of_lt hi, List.getD_eq_getElem _ _ hi, hget]

/-- Claim C9 amended witness: the selector applied at concrete word-list
outcomes, including a concrete pick of the second of two lines. -/
theorem C9_witness :
    get_useragent true (.ok ["agent-a", "agent-b"]) 3 = .ok "agent-b"
    ∧ get_useragent false .notReadable 7 = .ok default_ua
    ∧ (∃ pick, get_useragent true (.ok ["agent-a", "agent-b"]) pick
        = .ok "agent-a") := by
  refine ⟨?_, C9_useragent_selection.1 .notReadable 7,
    C9_useragent_selection.2.2.2.1 ["agent-a", "agent-b"] "agent-a" (by decide)⟩
  have h := C9_useragent_selection.2.2.1 ["agent-a", "agent-b"] 3 (by decide)
  simpa using h

/-- Claim C10 (confirmed): when the selected provider returns an empty
FQDN list for a target, `print_domains` prints the no-domains notice and
performs no open of the output file: the open count and the file's
contents are exactly those of the incoming state (so the file is not
created either). -/
theorem C10_empty_result_leaves_file_alone :
    ∀ (resolve : String → Except ProviderError (List String))
      (useOutput : Bool) (ip : String) (st : RunState) (addr : Nat),
      ip_address ip = some addr →
      resolve (ipToString addr) = .ok [] →
      print_domains resolve useOutput ip st
        = ({ st with printed := st.printed ++
            ["No domains found for IP " ++ ipToString addr ++ ", sorry."] },
           none) := by
  intro resolve useOutput ip st addr h1 h2
  rw [print_domains, h1]
  simp only [h2]
  rw [if_neg (by decide)]

/-- Claim C10 witness: a concrete empty lookup leaves the initial state's
file untouched (never opened) and prints the notice. -/
theorem C10_witness :
    print_domains stubEmpty true "10.0.0.1" initState
      = (⟨["No domains found for IP 10.0.0.1, sorry."], 0, []⟩, none) := by
  have h := C10_empty_result_leaves_file_alone stubEmpty true "10.0.0.1"
    initState 167772161 (by rfl) (by rfl)
  simpa using h

end PaReD
